import Mathlib

/-!
# Verification of the Razorpay payment reconciliation backend

A shallow embedding of the payment reconciliation logic of the repository
(payment controller, payment model, signature helpers), together with
theorems settling the specification's claims about it.

Conventions of the embedding:
* JavaScript numbers that only ever hold exact decimal amounts are modelled
  as rationals (`Rat`), so the source's divisions by 100 are exact.
* Machine words inside SHA-256 are natural numbers reduced mod 2^32.
* The MongoDB collections are association lists keyed by the gateway
  identifiers; `findOne`/`findOneAndUpdate` act on the first match, as
  Mongo does for these queries.
* External collaborators (the Razorpay REST fetches) are parameters of the
  operations that call them; `throw`/`catch` is `Except`.
-/

set_option maxRecDepth 8000

namespace RzInt

/-! ## SHA-256 over byte lists (bytes and words as `Nat`)

The source signs and verifies with node's `crypto.createHmac('sha256', ...)
.update(...).digest('hex')`.  We implement HMAC-SHA256 concretely so the
signature claims are about the real function.  -/

/-- Truncate to a 32-bit word. -/
def w32 (n : Nat) : Nat := n % 4294967296

/-- Right rotation of a 32-bit word. -/
def rotr (x n : Nat) : Nat := w32 ((x >>> n) ||| (x <<< (32 - n)))

/-- SHA-256 Ch function. -/
def shaCh (x y z : Nat) : Nat := (x &&& y) ^^^ ((x ^^^ 4294967295) &&& z)

/-- SHA-256 Maj function. -/
def shaMaj (x y z : Nat) : Nat := (x &&& y) ^^^ (x &&& z) ^^^ (y &&& z)

/-- SHA-256 big sigma 0. -/
def bigSigma0 (x : Nat) : Nat := rotr x 2 ^^^ rotr x 13 ^^^ rotr x 22

/-- SHA-256 big sigma 1. -/
def bigSigma1 (x : Nat) : Nat := rotr x 6 ^^^ rotr x 11 ^^^ rotr x 25

/-- SHA-256 small sigma 0. -/
def smallSigma0 (x : Nat) : Nat := rotr x 7 ^^^ rotr x 18 ^^^ (x >>> 3)

/-- SHA-256 small sigma 1. -/
def smallSigma1 (x : Nat) : Nat := rotr x 17 ^^^ rotr x 19 ^^^ (x >>> 10)

/-- The 64 SHA-256 round constants (FIPS 180-4, in decimal). -/
def shaK : List Nat :=
  [1116352408, 1899447441, 3049323471, 3921009573, 961987163,
   1508970993, 2453635748, 2870763221, 3624381080, 310598401,
   607225278, 1426881987, 1925078388, 2162078206, 2614888103,
   3248222580, 3835390401, 4022224774, 264347078, 604807628,
   770255983, 1249150122, 1555081692, 1996064986, 2554220882,
   2821834349, 2952996808, 3210313671, 3336571891, 3584528711,
   113926993, 338241895, 666307205, 773529912, 1294757372,
   1396182291, 1695183700, 1986661051, 2177026350, 2456956037,
   2730485921, 2820302411, 3259730800, 3345764771, 3516065817,
   3600352804, 4094571909, 275423344, 430227734, 506948616,
   659060556, 883997877, 958139571, 1322822218, 1537002063,
   1747873779, 1955562222, 2024104815, 2227730452, 2361852424,
   2428436474, 2756734187, 3204031479, 3329325298]

/-- The eight working variables of the compression function. -/
structure Hash8 where
  a : Nat
  b : Nat
  c : Nat
  d : Nat
  e : Nat
  f : Nat
  g : Nat
  h : Nat
deriving DecidableEq

/-- The SHA-256 initial hash value (FIPS 180-4, in decimal). -/
def shaInit : Hash8 :=
  ⟨1779033703, 3144134277, 1013904242, 2773480762,
   1359893119, 2600822924, 528734635, 1541459225⟩

/-- One compression round. -/
def shaRound (kt wt : Nat) (s : Hash8) : Hash8 :=
  let t1 := w32 (s.h + bigSigma1 s.e + shaCh s.e s.f s.g + kt + wt)
  let t2 := w32 (bigSigma0 s.a + shaMaj s.a s.b s.c)
  ⟨w32 (t1 + t2), s.a, s.b, s.c, w32 (s.d + t1), s.e, s.f, s.g⟩

/-- Big-endian byte serialization of `n` on `k` bytes. -/
def toBytesBE (k n : Nat) : List Nat :=
  (List.range k).map (fun i => (n >>> ((k - 1 - i) * 8)) % 256)

/-- Group a byte list into big-endian 32-bit words. -/
def bytesToWords : List Nat → List Nat
  | b0 :: b1 :: b2 :: b3 :: rest =>
      (b0 * 16777216 + b1 * 65536 + b2 * 256 + b3) :: bytesToWords rest
  | _ => []

/-- Extend the 16 message-schedule words to 64. -/
def shaSchedule (ws : List Nat) : Array Nat :=
  (List.range 48).foldl
    (fun w i =>
      let t := w32 (smallSigma1 (w.getD (i + 14) 0) + w.getD (i + 9) 0 +
                    smallSigma0 (w.getD (i + 1) 0) + w.getD i 0)
      w.push t)
    ws.toArray

/-- Compress one 64-byte block into the running hash. -/
def compressBlock (h0 : Hash8) (block : List Nat) : Hash8 :=
  let w := shaSchedule (bytesToWords block)
  let s := (shaK.zip w.toList).foldl (fun s kw => shaRound kw.1 kw.2 s) h0
  ⟨w32 (h0.a + s.a), w32 (h0.b + s.b), w32 (h0.c + s.c), w32 (h0.d + s.d),
   w32 (h0.e + s.e), w32 (h0.f + s.f), w32 (h0.g + s.g), w32 (h0.h + s.h)⟩

/-- SHA-256 padding: `0x80`, zeros, then the 64-bit big-endian bit length. -/
def padMessage (msg : List Nat) : List Nat :=
  let padZeros := (55 + 64 - msg.length % 64) % 64
  msg ++ [0x80] ++ List.replicate padZeros 0 ++ toBytesBE 8 (msg.length * 8)

/-- Split into 64-byte blocks; the fuel is an upper bound on the block count. -/
def blocksAux : Nat → List Nat → List (List Nat)
  | 0, _ => []
  | _, [] => []
  | Nat.succ fuel, l => l.take 64 :: blocksAux fuel (l.drop 64)

/-- SHA-256 of a byte list, as its 32 digest bytes. -/
def sha256 (msg : List Nat) : List Nat :=
  let padded := padMessage msg
  let fin := (blocksAux padded.length padded).foldl compressBlock shaInit
  toBytesBE 4 fin.a ++ toBytesBE 4 fin.b ++ toBytesBE 4 fin.c ++
  toBytesBE 4 fin.d ++ toBytesBE 4 fin.e ++ toBytesBE 4 fin.f ++
  toBytesBE 4 fin.g ++ toBytesBE 4 fin.h

/-- HMAC-SHA256 over byte lists. -/
def hmacSha256 (key msg : List Nat) : List Nat :=
  let k0 := if 64 < key.length then sha256 key else key
  let kpad := k0 ++ List.replicate (64 - k0.length) 0
  let ipad := kpad.map (fun b => b ^^^ 0x36)
  let opad := kpad.map (fun b => b ^^^ 0x5c)
  sha256 (opad ++ sha256 (ipad ++ msg))

/-- The sixteen lowercase hex digits. -/
def hexDigits : List Char := "0123456789abcdef".data

/-- Lowercase hex rendering of a byte list (node's `.digest('hex')`). -/
def toHex (bytes : List Nat) : String :=
  String.mk (bytes.foldr
    (fun b acc => hexDigits.getD (b / 16 % 16) '0' :: hexDigits.getD (b % 16) '0' :: acc)
    [])

/-- UTF-8 encoding of one code point. -/
def utf8Enc (c : Nat) : List Nat :=
  if c ≤ 0x7f then [c]
  else if c ≤ 0x7ff then [(c >>> 6) &&& 0x1f ||| 0xc0, c &&& 0x3f ||| 0x80]
  else if c ≤ 0xffff then
    [(c >>> 12) &&& 0x0f ||| 0xe0, (c >>> 6) &&& 0x3f ||| 0x80, c &&& 0x3f ||| 0x80]
  else
    [(c >>> 18) &&& 0x07 ||| 0xf0, (c >>> 12) &&& 0x3f ||| 0x80,
     (c >>> 6) &&& 0x3f ||| 0x80, c &&& 0x3f ||| 0x80]

/-- UTF-8 bytes of a string, as naturals. -/
def strBytes (s : String) : List Nat := s.data.flatMap (fun ch => utf8Enc ch.toNat)

/-- The hex digest `crypto.createHmac('sha256', key).update(msg).digest('hex')`. -/
def hmacSha256Hex (key msg : String) : String :=
  toHex (hmacSha256 (strBytes key) (strBytes msg))

/-- FIPS 180-2 test vector: SHA-256 of `"abc"`. -/
theorem sha256_vector_abc :
    toHex (sha256 (strBytes "abc")) =
      "ba7816bf8f01cfea414140de5dae2223b00361a396177a9cb410ff61f20015ad" := by
  decide

/-- RFC 4231-style vector for the HMAC composition. -/
theorem hmac_vector_fox :
    hmacSha256Hex "key" "The quick brown fox jumps over the lazy dog" =
      "f7bc83f430538424b13298e6aa6fb143ef4d59a14946175997479dbc2d1a3cd8" := by
  decide

/-! ## Data model

Documents as the payment controller reads and writes them: a `Payment` with
gateway payment/order ids, a status string, an amount in rupees, and a list
of refund sub-records (gateway refund id, amount in paise, status string);
an `Order` with gateway order id and status.  The store holds each
collection as a list of documents; `findOne`/`findOneAndUpdate` touch the
first document matching the queried id.  -/

/-- A refund sub-record as the controller stores it (the raw gateway refund
entity: external id, amount in paise, status). -/
structure Refund where
  id : String
  amount : Rat
  status : String
deriving DecidableEq

/-- A payment document, with the fields the reconciliation code touches. -/
structure Payment where
  paymentId : String
  orderId : String
  status : String
  amount : Rat
  refunds : List Refund
deriving DecidableEq

/-- An order document, with the fields the reconciliation code touches. -/
structure Order where
  orderId : String
  status : String
deriving DecidableEq

/-- The persistent store: the payments and orders collections. -/
structure DB where
  payments : List Payment
  orders : List Order
deriving DecidableEq

/-- The query `Payment.findOne({ paymentId })`: first match. -/
def findPayment (db : DB) (pid : String) : Option Payment :=
  db.payments.find? (fun p => p.paymentId == pid)

/-- The query `Order.findOne({ orderId })`: first match. -/
def findOrder (db : DB) (oid : String) : Option Order :=
  db.orders.find? (fun o => o.orderId == oid)

/-- Apply `f` to the first payment with the given id (no-op when absent). -/
def updateFirstPayment (ps : List Payment) (pid : String) (f : Payment → Payment) :
    List Payment :=
  match ps with
  | [] => []
  | p :: rest =>
      if p.paymentId == pid then f p :: rest
      else p :: updateFirstPayment rest pid f

/-- Apply `f` to the first order with the given id (no-op when absent). -/
def updateFirstOrder (os : List Order) (oid : String) (f : Order → Order) :
    List Order :=
  match os with
  | [] => []
  | o :: rest =>
      if o.orderId == oid then f o :: rest
      else o :: updateFirstOrder rest oid f

/-- JavaScript truthiness of the optional `order_id` taken from the event
payload (`undefined` and the empty string are falsy). -/
def truthy : Option String → Bool
  | none => false
  | some s => s ≠ ""

/-- The `refunds` virtual of the payment model (`refundedAmount`): the sum of
the amounts of the refund sub-records whose status is `processed`. -/
def refundedAmount (p : Payment) : Rat :=
  (p.refunds.filter (fun r => r.status == "processed")).foldl
    (fun total r => total + r.amount) 0

/-! ## Reconciliation operations (payment controller) -/

/-- The document `findOneAndUpdate({ paymentId }, { status }, { upsert: true })`
inserts when no payment matches: the filter's equality plus the update. -/
def upsertedPayment (pid status : String) : Payment :=
  { paymentId := pid, orderId := "", status := status, amount := 0, refunds := [] }

/-- The helper `updatePaymentStatus(paymentId, orderId, status)`: upsert the payment's
status, then, when the event carried an order id, map the order's status
(`captured` becomes `paid`). -/
def updatePaymentStatus (pid : String) (oid : Option String) (status : String)
    (db : DB) : DB :=
  let payments :=
    if db.payments.any (fun p => p.paymentId == pid) then
      updateFirstPayment db.payments pid (fun p => { p with status := status })
    else
      db.payments ++ [upsertedPayment pid status]
  let orders :=
    match oid with
    | some o =>
        if o ≠ "" then
          updateFirstOrder db.orders o
            (fun ord => { ord with status := if status == "captured" then "paid" else status })
        else db.orders
    | none => db.orders
  ⟨payments, orders⟩

/-- Set the status of the first refund sub-record with the given external id
(the `findIndex` / in-place assignment of `updateRefundStatus`). -/
def setRefundStatusFirst (rs : List Refund) (rid status : String) : List Refund :=
  match rs with
  | [] => []
  | r :: rest =>
      if r.id == rid then { r with status := status } :: rest
      else r :: setRefundStatusFirst rest rid status

/-- The reduce in `updateRefundStatus`: the amounts of all refund
sub-records, regardless of their status, summed in rupees. -/
def totalRefunded (rs : List Refund) : Rat :=
  rs.foldl (fun total r => total + r.amount / 100) 0

/-- The helper `updateRefundStatus(refundId, paymentId, status)`.  Throws when no payment
matches the payment id.  Updates the matching refund sub-record in place, or
pushes the entity fetched from the gateway (`fetchRefund`).  On `processed`,
recomputes the payment status from the summed refund amounts and projects it
onto the order. -/
def updateRefundStatus (fetchRefund : String → Refund) (rid pid status : String)
    (db : DB) : Except String DB :=
  match findPayment db pid with
  | none => .error "Payment not found"
  | some payment =>
      let refunds :=
        if payment.refunds.any (fun r => r.id == rid) then
          setRefundStatusFirst payment.refunds rid status
        else
          payment.refunds ++ [fetchRefund rid]
      if status == "processed" then
        let total := totalRefunded refunds
        let newStatus := if payment.amount ≤ total then "refunded" else "partially_refunded"
        let orders :=
          updateFirstOrder db.orders payment.orderId (fun o => { o with status := newStatus })
        .ok ⟨updateFirstPayment db.payments pid
               (fun _ => { payment with refunds := refunds, status := newStatus }),
             orders⟩
      else
        .ok ⟨updateFirstPayment db.payments pid
               (fun _ => { payment with refunds := refunds }),
             db.orders⟩

/-- The authoritative payment details `razorpayInstance.payments.fetch`
returns on the verify path (amount in paise). -/
structure GatewayPayment where
  amount : Rat
  currency : String
  status : String
  method : String

/-- The check `validatePaymentVerification(orderId, paymentId, signature)`: hex
HMAC-SHA256 of `orderId + "|" + paymentId` under the key secret, compared to
the claimed signature. -/
def validatePaymentVerification (keySecret orderId paymentId signature : String) :
    Bool :=
  hmacSha256Hex keySecret (orderId ++ "|" ++ paymentId) == signature

/-- The handler `verifyPayment` (POST /payments/verify): reject missing fields (400) and
bad signatures (400); otherwise fetch the payment from the gateway, set the
order's status to `paid` (404 when the order is absent), and create a new
payment document from the gateway details.  Returns the HTTP status and the
resulting store. -/
def verifyPayment (keySecret : String) (fetchPayment : String → GatewayPayment)
    (orderId paymentId signature : String) (db : DB) : Nat × DB :=
  if orderId == "" || paymentId == "" || signature == "" then (400, db)
  else if !validatePaymentVerification keySecret orderId paymentId signature then (400, db)
  else
    let pd := fetchPayment paymentId
    if db.orders.any (fun o => o.orderId == orderId) then
      let orders := updateFirstOrder db.orders orderId (fun o => { o with status := "paid" })
      let newPayment : Payment :=
        { paymentId := paymentId, orderId := orderId, status := pd.status,
          amount := pd.amount / 100, refunds := [] }
      (200, ⟨db.payments ++ [newPayment], orders⟩)
    else (404, db)

/-! ## Webhook handler -/

/-- The `payload.payment.entity` of a webhook envelope. -/
structure PayEntity where
  id : String
  order_id : Option String
deriving DecidableEq

/-- The `payload.refund.entity` of a webhook envelope. -/
structure RefEntity where
  id : String
  payment_id : String
deriving DecidableEq

/-- A parsed webhook body: the event name and whichever entity the payload
carries (`none` models a payload without that key, whose field access
throws). -/
structure WebhookBody where
  event : String
  payment : Option PayEntity
  refund : Option RefEntity
deriving DecidableEq

/-- The serialization `JSON.stringify(req.body)` on the parsed envelope: a deterministic JSON
rendering in the gateway's key order. -/
def WebhookBody.stringify (b : WebhookBody) : String :=
  let payPart :=
    match b.payment with
    | some e =>
        let oid := match e.order_id with
          | some o => "\"" ++ o ++ "\""
          | none => "null"
        "\"payment\":\x7b\"entity\":\x7b\"id\":\"" ++ e.id ++ "\",\"order_id\":" ++
          oid ++ "\x7d\x7d"
    | none => ""
  let refPart :=
    match b.refund with
    | some e =>
        "\"refund\":\x7b\"entity\":\x7b\"id\":\"" ++ e.id ++ "\",\"payment_id\":\"" ++
          e.payment_id ++ "\"\x7d\x7d"
    | none => ""
  "\x7b\"event\":\"" ++ b.event ++ "\",\"payload\":\x7b" ++ payPart ++ refPart ++
    "\x7d\x7d"

/-- The switch of `handleWebhook`: dispatch a signature-checked event into the
state helpers.  `.error` models a thrown exception (accessing a missing
payload entity, or `updateRefundStatus` throwing). -/
def dispatchEvent (fetchRefund : String → Refund) (body : WebhookBody) (db : DB) :
    Except String DB :=
  if body.event == "payment.authorized" then
    match body.payment with
    | none => .error "TypeError"
    | some _ => .ok db
  else if body.event == "payment.captured" then
    match body.payment with
    | none => .error "TypeError"
    | some e => .ok (updatePaymentStatus e.id e.order_id "captured" db)
  else if body.event == "payment.failed" then
    match body.payment with
    | none => .error "TypeError"
    | some e => .ok (updatePaymentStatus e.id e.order_id "failed" db)
  else if body.event == "refund.created" then
    match body.refund with
    | none => .error "TypeError"
    | some e => updateRefundStatus fetchRefund e.id e.payment_id "created" db
  else if body.event == "refund.processed" then
    match body.refund with
    | none => .error "TypeError"
    | some e => updateRefundStatus fetchRefund e.id e.payment_id "processed" db
  else .ok db

/-- The handler `handleWebhook` (POST /payments/webhook): 400 when the signature header is
missing or does not equal the HMAC of the stringified body; otherwise
dispatch, answering 200 on success and 500 (from the catch) when the
dispatch throws.  Returns the HTTP status and the resulting store. -/
def handleWebhook (fetchRefund : String → Refund) (webhookSecret : String)
    (sigHeader : Option String) (body : WebhookBody) (db : DB) : Nat × DB :=
  match sigHeader with
  | none => (400, db)
  | some sig =>
      if hmacSha256Hex webhookSecret body.stringify ≠ sig then (400, db)
      else
        match dispatchEvent fetchRefund body db with
        | .ok db2 => (200, db2)
        | .error _ => (500, db)

deriving instance DecidableEq for Except

/-! ## Basic facts about the embedded definitions -/

/-- Hex rendering doubles the length. -/
theorem toHex_length (bs : List Nat) : (toHex bs).length = 2 * bs.length := by
  show (bs.foldr (fun b acc =>
      hexDigits.getD (b / 16 % 16) '0' :: hexDigits.getD (b % 16) '0' :: acc) []).length
    = 2 * bs.length
  induction bs with
  | nil => rfl
  | cons b rest ih =>
      simp only [List.foldr_cons, List.length_cons, ih]
      omega

/-- A SHA-256 digest has 32 bytes. -/
theorem sha256_length (msg : List Nat) : (sha256 msg).length = 32 := by
  simp [sha256, toBytesBE]

/-- A hex HMAC digest is never the empty string. -/
theorem hmacSha256Hex_ne_empty (key msg : String) : hmacSha256Hex key msg ≠ "" := by
  intro h
  have hl : (hmacSha256Hex key msg).length = 0 := by rw [h]; rfl
  simp only [hmacSha256Hex, toHex_length, hmacSha256] at hl
  simp [sha256_length] at hl

/-! ## Reconciliation lemmas -/

/-- Two stores with equal collections are equal. -/
theorem DB.eq_of (a b : DB) (hp : a.payments = b.payments)
    (ho : a.orders = b.orders) : a = b := by
  cases a; cases b
  cases hp; cases ho
  rfl

/-- The payments collection written by `updatePaymentStatus`. -/
theorem updatePaymentStatus_payments_eq (pid : String) (oid : Option String)
    (s : String) (db : DB) :
    (updatePaymentStatus pid oid s db).payments
      = if db.payments.any (fun p => p.paymentId == pid) then
          updateFirstPayment db.payments pid (fun p => { p with status := s })
        else db.payments ++ [upsertedPayment pid s] := rfl

/-- The orders collection written by `updatePaymentStatus`. -/
theorem updatePaymentStatus_orders_eq (pid : String) (oid : Option String)
    (s : String) (db : DB) :
    (updatePaymentStatus pid oid s db).orders
      = match oid with
        | some o =>
            if o ≠ "" then
              updateFirstOrder db.orders o
                (fun ord => { ord with status := if s == "captured" then "paid" else s })
            else db.orders
        | none => db.orders := rfl

/-- Setting the status of the first matching payment does not change which
payment ids occur. -/
theorem any_updateFirstPayment_status (ps : List Payment) (pid s : String) :
    (updateFirstPayment ps pid (fun p => { p with status := s })).any
        (fun p => p.paymentId == pid)
      = ps.any (fun p => p.paymentId == pid) := by
  induction ps with
  | nil => rfl
  | cons p rest ih =>
      cases hb : (p.paymentId == pid)
      · simp [updateFirstPayment, hb, ih]
      · simp [updateFirstPayment, hb]

/-- Re-setting the first matching payment's status is a no-op. -/
theorem updateFirstPayment_status_idem (ps : List Payment) (pid s : String) :
    updateFirstPayment
        (updateFirstPayment ps pid (fun p => { p with status := s })) pid
        (fun p => { p with status := s })
      = updateFirstPayment ps pid (fun p => { p with status := s }) := by
  induction ps with
  | nil => rfl
  | cons p rest ih =>
      cases hb : (p.paymentId == pid)
      · simp [updateFirstPayment, hb, ih]
      · simp [updateFirstPayment, hb]

/-- Re-writing the first matching payment with the same document is a no-op. -/
theorem updateFirstPayment_const_idem (ps : List Payment) (pid : String)
    (c : Payment) (hc : (c.paymentId == pid) = true) :
    updateFirstPayment (updateFirstPayment ps pid (fun _ => c)) pid (fun _ => c)
      = updateFirstPayment ps pid (fun _ => c) := by
  induction ps with
  | nil => rfl
  | cons p rest ih =>
      cases hb : (p.paymentId == pid)
      · simp [updateFirstPayment, hb, ih]
      · simp [updateFirstPayment, hb, hc]

/-- When no payment matches, updating the appended document applies the
update to it alone. -/
theorem updateFirstPayment_append_of_not_any (ps : List Payment) (pid : String)
    (g : Payment → Payment) (q : Payment)
    (ha : ps.any (fun p => p.paymentId == pid) = false)
    (hq : (q.paymentId == pid) = true) :
    updateFirstPayment (ps ++ [q]) pid g = ps ++ [g q] := by
  induction ps with
  | nil => simp [updateFirstPayment, hq]
  | cons p rest ih =>
      simp only [List.any_cons, Bool.or_eq_false_iff] at ha
      simp [updateFirstPayment, ha.1, ih ha.2]

/-- The first match of a first-match constant rewrite is the new document. -/
theorem find?_updateFirstPayment_const (ps : List Payment) (pid : String)
    (c : Payment) (hc : (c.paymentId == pid) = true)
    (hfound : ps.any (fun p => p.paymentId == pid) = true) :
    (updateFirstPayment ps pid (fun _ => c)).find? (fun p => p.paymentId == pid)
      = some c := by
  induction ps with
  | nil => simp at hfound
  | cons p rest ih =>
      cases hb : (p.paymentId == pid)
      · simp only [List.any_cons, hb, Bool.false_or] at hfound
        simp [updateFirstPayment, List.find?, hb, ih hfound]
      · simp [updateFirstPayment, List.find?, hb, hc]

/-- Re-setting the first matching order's status is a no-op. -/
theorem updateFirstOrder_status_idem (os : List Order) (oid s : String) :
    updateFirstOrder (updateFirstOrder os oid (fun o => { o with status := s })) oid
        (fun o => { o with status := s })
      = updateFirstOrder os oid (fun o => { o with status := s }) := by
  induction os with
  | nil => rfl
  | cons o rest ih =>
      cases hb : (o.orderId == oid)
      · simp [updateFirstOrder, hb, ih]
      · simp [updateFirstOrder, hb]

/-- Setting the status of the first matching refund does not change which
refund ids occur. -/
theorem any_setRefundStatusFirst (rs : List Refund) (rid s : String) :
    (setRefundStatusFirst rs rid s).any (fun r => r.id == rid)
      = rs.any (fun r => r.id == rid) := by
  induction rs with
  | nil => rfl
  | cons r rest ih =>
      cases hb : (r.id == rid)
      · simp [setRefundStatusFirst, hb, ih]
      · simp [setRefundStatusFirst, hb]

/-- Re-setting the first matching refund's status is a no-op. -/
theorem setRefundStatusFirst_idem (rs : List Refund) (rid s : String) :
    setRefundStatusFirst (setRefundStatusFirst rs rid s) rid s
      = setRefundStatusFirst rs rid s := by
  induction rs with
  | nil => rfl
  | cons r rest ih =>
      cases hb : (r.id == rid)
      · simp [setRefundStatusFirst, hb, ih]
      · simp [setRefundStatusFirst, hb]

/-- The status write keeps every refund id. -/
theorem map_id_setRefundStatusFirst (rs : List Refund) (rid s : String) :
    (setRefundStatusFirst rs rid s).map Refund.id = rs.map Refund.id := by
  induction rs with
  | nil => rfl
  | cons r rest ih =>
      cases hb : (r.id == rid)
      · simp [setRefundStatusFirst, hb, ih]
      · simp [setRefundStatusFirst, hb]

/-- The status write keeps every refund amount. -/
theorem map_amount_setRefundStatusFirst (rs : List Refund) (rid s : String) :
    (setRefundStatusFirst rs rid s).map Refund.amount = rs.map Refund.amount := by
  induction rs with
  | nil => rfl
  | cons r rest ih =>
      cases hb : (r.id == rid)
      · simp [setRefundStatusFirst, hb, ih]
      · simp [setRefundStatusFirst, hb]

/-- The status write keeps the summed refund total. -/
theorem totalRefunded_setRefundStatusFirst (rs : List Refund) (rid s : String) :
    totalRefunded (setRefundStatusFirst rs rid s) = totalRefunded rs := by
  have hgen : ∀ (l : List Refund) (a : Rat),
      (setRefundStatusFirst l rid s).foldl (fun total r => total + r.amount / 100) a
        = l.foldl (fun total r => total + r.amount / 100) a := by
    intro l
    induction l with
    | nil => intro a; rfl
    | cons r rest ih =>
        intro a
        cases hb : (r.id == rid)
        · simp [setRefundStatusFirst, hb, ih]
        · simp [setRefundStatusFirst, hb]
  exact hgen rs 0

/-- When no refund matches, the status write lands on the appended record. -/
theorem setRefundStatusFirst_append_of_not_any (rs : List Refund) (rid s : String)
    (q : Refund) (ha : rs.any (fun r => r.id == rid) = false)
    (hq : (q.id == rid) = true) :
    setRefundStatusFirst (rs ++ [q]) rid s = rs ++ [{ q with status := s }] := by
  induction rs with
  | nil => simp [setRefundStatusFirst, hq]
  | cons r rest ih =>
      simp only [List.any_cons, Bool.or_eq_false_iff] at ha
      simp [setRefundStatusFirst, ha.1, ih ha.2]

/-- Duplicate delivery of a captured/failed event: the second
`updatePaymentStatus` with the same arguments changes nothing. -/
theorem updatePaymentStatus_idem (pid : String) (oid : Option String)
    (s : String) (db : DB) :
    updatePaymentStatus pid oid s (updatePaymentStatus pid oid s db)
      = updatePaymentStatus pid oid s db := by
  apply DB.eq_of
  · rw [updatePaymentStatus_payments_eq pid oid s (updatePaymentStatus pid oid s db),
        updatePaymentStatus_payments_eq pid oid s db]
    cases ha : db.payments.any (fun p => p.paymentId == pid)
    · have hany : ((db.payments ++ [upsertedPayment pid s]).any
          (fun p => p.paymentId == pid)) = true := by
        simp [List.any_append, upsertedPayment]
      have hup := updateFirstPayment_append_of_not_any db.payments pid
        (fun p => { p with status := s }) (upsertedPayment pid s) ha
        (by simp [upsertedPayment])
      simp only [upsertedPayment] at hup hany ⊢
      simp [ha, hany, hup]
    · simp [ha, any_updateFirstPayment_status, updateFirstPayment_status_idem]
  · rw [updatePaymentStatus_orders_eq pid oid s (updatePaymentStatus pid oid s db),
        updatePaymentStatus_orders_eq pid oid s db]
    cases oid with
    | none => rfl
    | some o =>
        by_cases ho : o = ""
        · simp [ho]
        · simp only [ho, ne_eq, not_false_eq_true, if_true]
          exact updateFirstOrder_status_idem _ _ _

/-- Duplicate delivery of a refund event: once `updateRefundStatus` has
succeeded, running it again with the same arguments reproduces the same
store, provided the gateway fetch returns the entity for the requested
refund id with the status the event reports. -/
theorem updateRefundStatus_idem (fetchRefund : String → Refund)
    (rid pid s : String) (db db2 : DB)
    (hid : (fetchRefund rid).id = rid) (hst : (fetchRefund rid).status = s)
    (h : updateRefundStatus fetchRefund rid pid s db = .ok db2) :
    updateRefundStatus fetchRefund rid pid s db2 = .ok db2 := by
  rw [updateRefundStatus] at h
  cases hfp : findPayment db pid with
  | none => rw [hfp] at h; exact absurd h (by simp)
  | some payment =>
      rw [hfp] at h
      have hfp2 : db.payments.find? (fun p => p.paymentId == pid) = some payment := hfp
      have hpid : (payment.paymentId == pid) = true := by
        simpa using List.find?_some hfp2
      have hany : db.payments.any (fun p => p.paymentId == pid) = true :=
        List.any_eq_true.mpr ⟨payment, List.mem_of_find?_eq_some hfp2, hpid⟩
      have hqid : ((fetchRefund rid).id == rid) = true := by rw [hid]; exact beq_self_eq_true _
      have hfix : ∀ rs : List Refund,
          rs = (if payment.refunds.any (fun r => r.id == rid) then
                  setRefundStatusFirst payment.refunds rid s
                else payment.refunds ++ [fetchRefund rid]) →
          (rs.any (fun r => r.id == rid) = true ∧ setRefundStatusFirst rs rid s = rs) := by
        intro rs hrs
        cases hra : payment.refunds.any (fun r => r.id == rid)
        · rw [hra] at hrs
          simp only [Bool.false_eq_true, if_false] at hrs
          subst hrs
          constructor
          · simp [List.any_append, hqid]
          · rw [setRefundStatusFirst_append_of_not_any _ _ _ _ hra hqid]
            have heta : ({ fetchRefund rid with status := s } : Refund) = fetchRefund rid := by
              rw [← hst]
            rw [heta]
        · rw [hra] at hrs
          simp only [if_true] at hrs
          subst hrs
          exact ⟨by rw [any_setRefundStatusFirst, hra], setRefundStatusFirst_idem _ _ _⟩
      cases hsp : (s == "processed") with
      | false =>
          rw [hsp] at h
          simp only [Bool.false_eq_true, if_false, Except.ok.injEq] at h
          subst h
          obtain ⟨hran, hrset⟩ := hfix _ rfl
          have hc : (({ payment with
              refunds := (if payment.refunds.any (fun r => r.id == rid) then
                  setRefundStatusFirst payment.refunds rid s
                else payment.refunds ++ [fetchRefund rid]) } : Payment).paymentId == pid)
              = true := hpid
          rw [updateRefundStatus]
          rw [show findPayment
              ⟨updateFirstPayment db.payments pid (fun _ => { payment with
                  refunds := (if payment.refunds.any (fun r => r.id == rid) then
                      setRefundStatusFirst payment.refunds rid s
                    else payment.refunds ++ [fetchRefund rid]) }), db.orders⟩ pid
              = some { payment with
                  refunds := (if payment.refunds.any (fun r => r.id == rid) then
                      setRefundStatusFirst payment.refunds rid s
                    else payment.refunds ++ [fetchRefund rid]) } from
            find?_updateFirstPayment_const _ _ _ hc hany]
          simp only [hran, if_true, hrset, hsp, Bool.false_eq_true, if_false,
            Except.ok.injEq]
          exact DB.eq_of _ _ (updateFirstPayment_const_idem _ _ _ hc) rfl
      | true =>
          rw [hsp] at h
          simp only [if_true, Except.ok.injEq] at h
          subst h
          obtain ⟨hran, hrset⟩ := hfix _ rfl
          have hc : (({ payment with
              refunds := (if payment.refunds.any (fun r => r.id == rid) then
                  setRefundStatusFirst payment.refunds rid s
                else payment.refunds ++ [fetchRefund rid]),
              status := (if payment.amount ≤ totalRefunded
                  (if payment.refunds.any (fun r => r.id == rid) then
                      setRefundStatusFirst payment.refunds rid s
                    else payment.refunds ++ [fetchRefund rid])
                then "refunded" else "partially_refunded") } : Payment).paymentId == pid)
              = true := hpid
          rw [updateRefundStatus]
          rw [show findPayment
              ⟨updateFirstPayment db.payments pid (fun _ => { payment with
                  refunds := (if payment.refunds.any (fun r => r.id == rid) then
                      setRefundStatusFirst payment.refunds rid s
                    else payment.refunds ++ [fetchRefund rid]),
                  status := (if payment.amount ≤ totalRefunded
                      (if payment.refunds.any (fun r => r.id == rid) then
                          setRefundStatusFirst payment.refunds rid s
                        else payment.refunds ++ [fetchRefund rid])
                    then "refunded" else "partially_refunded") }),
                updateFirstOrder db.orders payment.orderId (fun o => { o with
                  status := (if payment.amount ≤ totalRefunded
                      (if payment.refunds.any (fun r => r.id == rid) then
                          setRefundStatusFirst payment.refunds rid s
                        else payment.refunds ++ [fetchRefund rid])
                    then "refunded" else "partially_refunded") })⟩ pid
              = some { payment with
                  refunds := (if payment.refunds.any (fun r => r.id == rid) then
                      setRefundStatusFirst payment.refunds rid s
                    else payment.refunds ++ [fetchRefund rid]),
                  status := (if payment.amount ≤ totalRefunded
                      (if payment.refunds.any (fun r => r.id == rid) then
                          setRefundStatusFirst payment.refunds rid s
                        else payment.refunds ++ [fetchRefund rid])
                    then "refunded" else "partially_refunded") } from
            find?_updateFirstPayment_const _ _ _ hc hany]
          simp only [hran, if_true, hrset, hsp, Except.ok.injEq]
          exact DB.eq_of _ _ (updateFirstPayment_const_idem _ _ _ hc)
            (updateFirstOrder_status_idem _ _ _)

/-- Packaging of `find?_updateFirstPayment_const` at the store level. -/
theorem findPayment_mk_update_const (ps : List Payment) (os : List Order)
    (pid : String) (c : Payment) (hc : (c.paymentId == pid) = true)
    (hfound : ps.any (fun p => p.paymentId == pid) = true) :
    findPayment ⟨updateFirstPayment ps pid (fun _ => c), os⟩ pid = some c :=
  find?_updateFirstPayment_const ps pid c hc hfound

/-- A refund event whose external refund id is already on file appends no
sub-record: the matched payment keeps the same refund ids, the same refund
amounts, and the same summed refund total — only status fields can move. -/
theorem updateRefundStatus_preserves_records (fetchRefund : String → Refund)
    (rid pid s : String) (db db3 : DB) (p : Payment)
    (hfp : findPayment db pid = some p)
    (hpre : p.refunds.any (fun r => r.id == rid) = true)
    (h3 : updateRefundStatus fetchRefund rid pid s db = .ok db3) :
    (findPayment db3 pid).map (fun q => q.refunds.map Refund.id)
        = some (p.refunds.map Refund.id)
    ∧ (findPayment db3 pid).map (fun q => q.refunds.map Refund.amount)
        = some (p.refunds.map Refund.amount)
    ∧ (findPayment db3 pid).map (fun q => totalRefunded q.refunds)
        = some (totalRefunded p.refunds) := by
  have hfp2 : db.payments.find? (fun q => q.paymentId == pid) = some p := hfp
  have hppid : (p.paymentId == pid) = true := by
    simpa using List.find?_some hfp2
  have hany : db.payments.any (fun q => q.paymentId == pid) = true :=
    List.any_eq_true.mpr ⟨p, List.mem_of_find?_eq_some hfp2, hppid⟩
  rw [updateRefundStatus] at h3
  rw [hfp] at h3
  simp only [hpre, if_true] at h3
  cases hsp : (s == "processed") with
  | false =>
      rw [hsp] at h3
      simp only [Bool.false_eq_true, if_false, Except.ok.injEq] at h3
      subst h3
      rw [findPayment_mk_update_const db.payments _ pid
          { p with refunds := setRefundStatusFirst p.refunds rid s } hppid hany]
      refine ⟨?_, ?_, ?_⟩ <;>
        simp [map_id_setRefundStatusFirst, map_amount_setRefundStatusFirst,
          totalRefunded_setRefundStatusFirst]
  | true =>
      rw [hsp] at h3
      simp only [if_true, Except.ok.injEq] at h3
      subst h3
      rw [findPayment_mk_update_const db.payments _ pid
          { p with
            refunds := setRefundStatusFirst p.refunds rid s,
            status := if p.amount ≤ totalRefunded (setRefundStatusFirst p.refunds rid s)
              then "refunded" else "partially_refunded" } hppid hany]
      refine ⟨?_, ?_, ?_⟩ <;>
        simp [map_id_setRefundStatusFirst, map_amount_setRefundStatusFirst,
          totalRefunded_setRefundStatusFirst]

/-- With the correctly computed signature and nonempty ids, `verifyPayment`
reaches the order lookup: it answers 404 on a missing order and otherwise
marks the order `paid` and appends a payment built from the gateway
details. -/
theorem verifyPayment_valid_sig (keySecret : String)
    (fetchPayment : String → GatewayPayment) (orderId paymentId : String) (db : DB)
    (ho : (orderId == "") = false) (hp : (paymentId == "") = false) :
    verifyPayment keySecret fetchPayment orderId paymentId
        (hmacSha256Hex keySecret (orderId ++ "|" ++ paymentId)) db
      = if db.orders.any (fun o => o.orderId == orderId) then
          (200, ⟨db.payments ++ [{
              paymentId := paymentId,
              orderId := orderId,
              status := (fetchPayment paymentId).status,
              amount := (fetchPayment paymentId).amount / 100,
              refunds := [] }],
            updateFirstOrder db.orders orderId (fun o => { o with status := "paid" })⟩)
        else (404, db) := by
  have hsig : ((hmacSha256Hex keySecret (orderId ++ "|" ++ paymentId)) == "") = false :=
    beq_eq_false_iff_ne.mpr (hmacSha256Hex_ne_empty _ _)
  have hval : validatePaymentVerification keySecret orderId paymentId
      (hmacSha256Hex keySecret (orderId ++ "|" ++ paymentId)) = true :=
    beq_self_eq_true _
  simp [verifyPayment, ho, hp, hsig, hval]

/-- After a valid signature the webhook handler answers by the dispatch
outcome: 200 with the updated store, or 500 with the store unchanged when
the dispatch throws. -/
theorem handleWebhook_valid_sig (fetchRefund : String → Refund) (secret : String)
    (body : WebhookBody) (db : DB) :
    handleWebhook fetchRefund secret (some (hmacSha256Hex secret body.stringify)) body db
      = (match dispatchEvent fetchRefund body db with
         | .ok db2 => (200, db2)
         | .error _ => (500, db)) := by
  show (if hmacSha256Hex secret body.stringify ≠ hmacSha256Hex secret body.stringify
        then ((400 : Nat), db)
        else match dispatchEvent fetchRefund body db with
             | .ok db2 => (200, db2)
             | .error _ => (500, db)) = _
  rw [if_neg (fun hne => hne rfl)]

/-! ## Claims -/

/-- C1 counterexample: the claim as stated fails for a duplicated
`refund.created` delivery.  The first application pushes the
gateway-fetched entity with its real status (`pending` — the refund
sub-schema's own enum has no `created`), and the second application finds
the sub-record and overwrites that status with the literal `created`, so
the persisted Payment after the second application differs from the state
after the first. -/
theorem C1_duplicate_refund_created_changes_state :
    updateRefundStatus (fun r => ⟨r, 100, "pending"⟩) "rf_1" "pay_1" "created"
        ⟨[⟨"pay_1", "order_1", "captured", 1, []⟩], [⟨"order_1", "paid"⟩]⟩
      = .ok ⟨[⟨"pay_1", "order_1", "captured", 1, [⟨"rf_1", 100, "pending"⟩]⟩],
             [⟨"order_1", "paid"⟩]⟩
    ∧ updateRefundStatus (fun r => ⟨r, 100, "pending"⟩) "rf_1" "pay_1" "created"
        ⟨[⟨"pay_1", "order_1", "captured", 1, [⟨"rf_1", 100, "pending"⟩]⟩],
         [⟨"order_1", "paid"⟩]⟩
      = .ok ⟨[⟨"pay_1", "order_1", "captured", 1, [⟨"rf_1", 100, "created"⟩]⟩],
             [⟨"order_1", "paid"⟩]⟩
    ∧ (⟨[⟨"pay_1", "order_1", "captured", 1, [⟨"rf_1", 100, "created"⟩]⟩],
         [⟨"order_1", "paid"⟩]⟩ : DB)
      ≠ ⟨[⟨"pay_1", "order_1", "captured", 1, [⟨"rf_1", 100, "pending"⟩]⟩],
         [⟨"order_1", "paid"⟩]⟩ := by
  with_unfolding_all decide

/-- C1 (amended): duplicate delivery after a first successful application is
harmless, and a no-op in all but one respect.  A repeated captured/failed
event leaves the store exactly as after the first `updatePaymentStatus`.  A
repeated refund event (same external refund id) appends no second refund
sub-record and preserves every sub-record's id and amount and the summed
refund total unconditionally; and when the gateway fetch returns the entity
for the requested refund id carrying the event's status — as a
`refund.processed` fetch does — the second `updateRefundStatus` reproduces
the persisted store of the first exactly.  (Only a duplicate
`refund.created` delivery, whose fetched entity carries a different status
such as `pending`, rewrites the matched sub-record's status field.) -/
theorem C1_duplicate_event_idempotent (fetchRefund : String → Refund)
    (pid rid spay s : String) (oid : Option String) (db db2 db3 : DB)
    (hid : (fetchRefund rid).id = rid) :
    updatePaymentStatus pid oid spay (updatePaymentStatus pid oid spay db)
        = updatePaymentStatus pid oid spay db
    ∧ ((fetchRefund rid).status = s →
        updateRefundStatus fetchRefund rid pid s db = .ok db2 →
        updateRefundStatus fetchRefund rid pid s db2 = .ok db2)
    ∧ (∀ p : Payment, findPayment db pid = some p →
        p.refunds.any (fun r => r.id == rid) = true →
        updateRefundStatus fetchRefund rid pid s db = .ok db3 →
        (findPayment db3 pid).map (fun q => q.refunds.map Refund.id)
            = some (p.refunds.map Refund.id)
        ∧ (findPayment db3 pid).map (fun q => q.refunds.map Refund.amount)
            = some (p.refunds.map Refund.amount)
        ∧ (findPayment db3 pid).map (fun q => totalRefunded q.refunds)
            = some (totalRefunded p.refunds)) :=
  ⟨updatePaymentStatus_idem pid oid spay db,
   fun hst h => updateRefundStatus_idem fetchRefund rid pid s db db2 hid hst h,
   fun p hfp hpre h3 =>
     updateRefundStatus_preserves_records fetchRefund rid pid s db db3 p hfp hpre h3⟩

/-- Witness for C1 (amended): a duplicated `payment.captured`, a duplicated
`refund.processed`, and the duplicated `refund.created` of the
counterexample input, whose second application still keeps the sub-record
ids, amounts and total. -/
theorem C1_duplicate_event_idempotent_witness :
    updatePaymentStatus "pay_1" (some "order_1") "captured"
        (updatePaymentStatus "pay_1" (some "order_1") "captured"
          ⟨[⟨"pay_1", "order_1", "created", 1, []⟩], [⟨"order_1", "created"⟩]⟩)
      = updatePaymentStatus "pay_1" (some "order_1") "captured"
          ⟨[⟨"pay_1", "order_1", "created", 1, []⟩], [⟨"order_1", "created"⟩]⟩
    ∧ updateRefundStatus (fun r => ⟨r, 100, "processed"⟩) "rf_1" "pay_1" "processed"
        ⟨[⟨"pay_1", "order_1", "refunded", 1, [⟨"rf_1", 100, "processed"⟩]⟩],
         [⟨"order_1", "refunded"⟩]⟩
      = .ok ⟨[⟨"pay_1", "order_1", "refunded", 1, [⟨"rf_1", 100, "processed"⟩]⟩],
             [⟨"order_1", "refunded"⟩]⟩
    ∧ (findPayment ⟨[⟨"pay_1", "order_1", "captured", 1, [⟨"rf_1", 100, "created"⟩]⟩],
          [⟨"order_1", "paid"⟩]⟩ "pay_1").map (fun q => q.refunds.map Refund.id)
        = some ["rf_1"]
    ∧ (findPayment ⟨[⟨"pay_1", "order_1", "captured", 1, [⟨"rf_1", 100, "created"⟩]⟩],
          [⟨"order_1", "paid"⟩]⟩ "pay_1").map (fun q => q.refunds.map Refund.amount)
        = some [100] :=
  ⟨(C1_duplicate_event_idempotent (fun r => ⟨r, 100, "processed"⟩) "pay_1" "rf_1"
      "captured" "processed" (some "order_1")
      ⟨[⟨"pay_1", "order_1", "created", 1, []⟩], [⟨"order_1", "created"⟩]⟩
      ⟨[], []⟩ ⟨[], []⟩ rfl).1,
   (C1_duplicate_event_idempotent (fun r => ⟨r, 100, "processed"⟩) "pay_1" "rf_1"
      "captured" "processed" (some "order_1")
      ⟨[⟨"pay_1", "order_1", "captured", 1, []⟩], [⟨"order_1", "paid"⟩]⟩
      ⟨[⟨"pay_1", "order_1", "refunded", 1, [⟨"rf_1", 100, "processed"⟩]⟩],
       [⟨"order_1", "refunded"⟩]⟩ ⟨[], []⟩ rfl).2.1 rfl
     (by with_unfolding_all decide),
   ((C1_duplicate_event_idempotent (fun r => ⟨r, 100, "pending"⟩) "pay_1" "rf_1"
      "captured" "created" (some "order_1")
      ⟨[⟨"pay_1", "order_1", "captured", 1, [⟨"rf_1", 100, "pending"⟩]⟩],
       [⟨"order_1", "paid"⟩]⟩
      ⟨[], []⟩
      ⟨[⟨"pay_1", "order_1", "captured", 1, [⟨"rf_1", 100, "created"⟩]⟩],
       [⟨"order_1", "paid"⟩]⟩ rfl).2.2
      ⟨"pay_1", "order_1", "captured", 1, [⟨"rf_1", 100, "pending"⟩]⟩
      (by decide) (by decide) (by with_unfolding_all decide)).1,
   ((C1_duplicate_event_idempotent (fun r => ⟨r, 100, "pending"⟩) "pay_1" "rf_1"
      "captured" "created" (some "order_1")
      ⟨[⟨"pay_1", "order_1", "captured", 1, [⟨"rf_1", 100, "pending"⟩]⟩],
       [⟨"order_1", "paid"⟩]⟩
      ⟨[], []⟩
      ⟨[⟨"pay_1", "order_1", "captured", 1, [⟨"rf_1", 100, "created"⟩]⟩],
       [⟨"order_1", "paid"⟩]⟩ rfl).2.2
      ⟨"pay_1", "order_1", "captured", 1, [⟨"rf_1", 100, "pending"⟩]⟩
      (by decide) (by decide) (by with_unfolding_all decide)).2.1⟩

/-- C3: the claim says the final store is permutation-independent for
logically consistent inputs, but the verify path unconditionally inserts a
fresh payment document: verify-then-webhook leaves one document for
`pay_X`, webhook-then-verify leaves two (the webhook upsert plus the verify
insert), so the two arrival orders end in different stores. -/
theorem C3_convergence_depends_on_arrival_order :
    ((updatePaymentStatus "pay_X" (some "order_A") "captured"
        (verifyPayment "sec" (fun _ => ⟨1000, "INR", "captured", "card"⟩)
          "order_A" "pay_X" (hmacSha256Hex "sec" ("order_A" ++ "|" ++ "pay_X"))
          ⟨[], [⟨"order_A", "created"⟩]⟩).2).payments.length = 1)
    ∧ ((verifyPayment "sec" (fun _ => ⟨1000, "INR", "captured", "card"⟩)
          "order_A" "pay_X" (hmacSha256Hex "sec" ("order_A" ++ "|" ++ "pay_X"))
          (updatePaymentStatus "pay_X" (some "order_A") "captured"
            ⟨[], [⟨"order_A", "created"⟩]⟩)).2.payments.length = 2)
    ∧ updatePaymentStatus "pay_X" (some "order_A") "captured"
        (verifyPayment "sec" (fun _ => ⟨1000, "INR", "captured", "card"⟩)
          "order_A" "pay_X" (hmacSha256Hex "sec" ("order_A" ++ "|" ++ "pay_X"))
          ⟨[], [⟨"order_A", "created"⟩]⟩).2
      ≠ (verifyPayment "sec" (fun _ => ⟨1000, "INR", "captured", "card"⟩)
          "order_A" "pay_X" (hmacSha256Hex "sec" ("order_A" ++ "|" ++ "pay_X"))
          (updatePaymentStatus "pay_X" (some "order_A") "captured"
            ⟨[], [⟨"order_A", "created"⟩]⟩)).2 := by
  have h1 : ((updatePaymentStatus "pay_X" (some "order_A") "captured"
      (verifyPayment "sec" (fun _ => ⟨1000, "INR", "captured", "card"⟩)
        "order_A" "pay_X" (hmacSha256Hex "sec" ("order_A" ++ "|" ++ "pay_X"))
        ⟨[], [⟨"order_A", "created"⟩]⟩).2).payments.length = 1) := by
    rw [verifyPayment_valid_sig "sec" _ "order_A" "pay_X" _ (by decide) (by decide)]
    decide
  have h2 : ((verifyPayment "sec" (fun _ => ⟨1000, "INR", "captured", "card"⟩)
      "order_A" "pay_X" (hmacSha256Hex "sec" ("order_A" ++ "|" ++ "pay_X"))
      (updatePaymentStatus "pay_X" (some "order_A") "captured"
        ⟨[], [⟨"order_A", "created"⟩]⟩)).2.payments.length = 2) := by
    rw [verifyPayment_valid_sig "sec" _ "order_A" "pay_X" _ (by decide) (by decide)]
    decide
  refine ⟨h1, h2, fun h => ?_⟩
  rw [h] at h1
  rw [h1] at h2
  exact absurd h2 (by decide)

/-- C2: the claim says `failed` and `refunded` are terminal, but
`updatePaymentStatus` blindly overwrites: a `payment.captured` webhook moves a
payment persisted as `failed` to `captured` (and marks its order `paid`). -/
theorem C2_terminal_state_overwritten :
    (findPayment ⟨[⟨"pay_1", "order_1", "failed", 5, []⟩], [⟨"order_1", "failed"⟩]⟩
        "pay_1").map Payment.status = some "failed"
    ∧ updatePaymentStatus "pay_1" (some "order_1") "captured"
        ⟨[⟨"pay_1", "order_1", "failed", 5, []⟩], [⟨"order_1", "failed"⟩]⟩
      = ⟨[⟨"pay_1", "order_1", "captured", 5, []⟩], [⟨"order_1", "paid"⟩]⟩ := by
  decide

/-- C4: the claim says only `processed` refund sub-records count towards the
aggregate, but the controller's reduce sums every refund regardless of
status: with a `pending` refund of the full amount on file, a
`refund.processed` for a second, zero-amount refund flips the payment to
`refunded` although the processed sum (the model's `refundedAmount`) is 0. -/
theorem C4_refund_sum_ignores_status :
    updateRefundStatus (fun r => ⟨r, 0, "processed"⟩) "rf_2" "pay_1" "processed"
        ⟨[⟨"pay_1", "order_1", "captured", 10, [⟨"rf_1", 1000, "pending"⟩]⟩],
         [⟨"order_1", "paid"⟩]⟩
      = .ok ⟨[⟨"pay_1", "order_1", "refunded", 10,
               [⟨"rf_1", 1000, "pending"⟩, ⟨"rf_2", 0, "processed"⟩]⟩],
             [⟨"order_1", "refunded"⟩]⟩
    ∧ refundedAmount ⟨"pay_1", "order_1", "refunded", 10,
        [⟨"rf_1", 1000, "pending"⟩, ⟨"rf_2", 0, "processed"⟩]⟩ = 0 := by
  with_unfolding_all decide

/-- C5: the claim says the processed refund sum is capped at the captured
amount and flagged for review when events overshoot, but the code records an
arbitrary overshoot: a processed refund of 600 rupees on a 5-rupee payment
is stored as-is, so the processed sum (600) exceeds the captured amount. -/
theorem C5_refund_sum_uncapped :
    updateRefundStatus (fun r => ⟨r, 600, "processed"⟩) "rf_1" "pay_1" "processed"
        ⟨[⟨"pay_1", "order_1", "captured", 5, []⟩], [⟨"order_1", "paid"⟩]⟩
      = .ok ⟨[⟨"pay_1", "order_1", "refunded", 5, [⟨"rf_1", 600, "processed"⟩]⟩],
             [⟨"order_1", "refunded"⟩]⟩
    ∧ (5 : Rat) < refundedAmount ⟨"pay_1", "order_1", "refunded", 5,
        [⟨"rf_1", 600, "processed"⟩]⟩ / 100 := by
  with_unfolding_all decide

/-- C6: the client-side verifier accepts exactly the hex HMAC-SHA256 of
`orderId + "|" + paymentId` under the shared secret: the correctly computed
signature verifies, and any other string is rejected. -/
theorem C6_signature_verifier (keySecret orderId paymentId sig : String) :
    (validatePaymentVerification keySecret orderId paymentId sig = true ↔
        sig = hmacSha256Hex keySecret (orderId ++ "|" ++ paymentId))
    ∧ validatePaymentVerification keySecret orderId paymentId
        (hmacSha256Hex keySecret (orderId ++ "|" ++ paymentId)) = true
    ∧ (sig ≠ hmacSha256Hex keySecret (orderId ++ "|" ++ paymentId) →
        validatePaymentVerification keySecret orderId paymentId sig = false) := by
  have hiff : ∀ s : String,
      validatePaymentVerification keySecret orderId paymentId s = true ↔
        s = hmacSha256Hex keySecret (orderId ++ "|" ++ paymentId) := by
    intro s
    constructor
    · intro h
      exact (eq_of_beq h).symm
    · intro h
      subst h
      exact beq_self_eq_true _
  refine ⟨hiff sig, (hiff _).mpr rfl, fun hne => ?_⟩
  cases hvb : validatePaymentVerification keySecret orderId paymentId sig
  · rfl
  · exact absurd ((hiff sig).mp hvb) hne

/-- Witness for C6 at a concrete triple and a concretely wrong signature (the
empty string, which no hex digest equals). -/
theorem C6_signature_verifier_witness :
    validatePaymentVerification "secret" "order_ABC" "pay_XYZ"
        (hmacSha256Hex "secret" ("order_ABC" ++ "|" ++ "pay_XYZ")) = true
    ∧ validatePaymentVerification "secret" "order_ABC" "pay_XYZ" "" = false :=
  ⟨(C6_signature_verifier "secret" "order_ABC" "pay_XYZ" "").2.1,
   (C6_signature_verifier "secret" "order_ABC" "pay_XYZ" "").2.2
     (Ne.symm (hmacSha256Hex_ne_empty "secret" ("order_ABC" ++ "|" ++ "pay_XYZ")))⟩

/-- C7: the claim expects Order status `processing` after a verified captured
payment, but `verifyPayment` persists the order as `paid`: at a correctly
signed request for an existing order whose payment the gateway reports
captured, the response is 200 and the created payment record is `captured`,
yet the order status written is `paid`, which differs from `processing`. -/
theorem C7_verify_writes_paid_not_processing :
    verifyPayment "sec" (fun _ => ⟨1000, "INR", "captured", "card"⟩)
        "order_ABC" "pay_XYZ" (hmacSha256Hex "sec" ("order_ABC" ++ "|" ++ "pay_XYZ"))
        ⟨[], [⟨"order_ABC", "created"⟩]⟩
      = (200, ⟨[⟨"pay_XYZ", "order_ABC", "captured", 1000 / 100, []⟩],
               [⟨"order_ABC", "paid"⟩]⟩)
    ∧ "paid" ≠ "processing" := by
  constructor
  · rw [verifyPayment_valid_sig "sec" _ "order_ABC" "pay_XYZ" _ (by decide) (by decide)]
    with_unfolding_all decide
  · decide

/-- C8: a webhook whose signature header is missing, or does not equal the
HMAC of the stringified body, is answered 400 with the store untouched. -/
theorem C8_invalid_signature_rejected (fetchRefund : String → Refund)
    (secret : String) (sig : Option String) (body : WebhookBody) (db : DB)
    (h : ∀ s, sig = some s → s ≠ hmacSha256Hex secret body.stringify) :
    handleWebhook fetchRefund secret sig body db = (400, db) := by
  cases sig with
  | none => rfl
  | some s =>
      have hs := h s rfl
      simp [handleWebhook, Ne.symm hs]

/-- Witness for C8: a request with no signature header at all. -/
theorem C8_invalid_signature_rejected_witness :
    handleWebhook (fun r => ⟨r, 0, "processed"⟩) "whsec" none
        ⟨"payment.captured", some ⟨"pay_X", some "order_A"⟩, none⟩ ⟨[], []⟩
      = (400, ⟨[], []⟩) :=
  C8_invalid_signature_rejected _ _ _ _ _ (fun _ h => nomatch h)

/-- C9 counterexample: a correctly signed `refund.processed` webhook whose
payment id is unknown makes `updateRefundStatus` throw, and the catch
answers 500 — an error status after a valid signature, refuting the claim
that the handler never errors once the signature passes. -/
theorem C9_valid_signature_can_return_500 :
    handleWebhook (fun r => ⟨r, 0, "processed"⟩) "whsec"
        (some (hmacSha256Hex "whsec"
          (WebhookBody.stringify ⟨"refund.processed", none, some ⟨"rf_1", "pay_1"⟩⟩)))
        ⟨"refund.processed", none, some ⟨"rf_1", "pay_1"⟩⟩ ⟨[], []⟩
      = (500, ⟨[], []⟩) := by
  rw [handleWebhook_valid_sig]
  decide

/-- C9 (amended): after a valid signature the handler answers 200 whenever
the dispatch completes — including no-op duplicates and unrecognized event
names — but when processing throws (a payload without the expected entity,
or a refund event whose payment is absent) the catch answers 500 with the
store unchanged. -/
theorem C9_webhook_ack_after_valid_signature (fetchRefund : String → Refund)
    (secret : String) (body : WebhookBody) (db db2 : DB) (msg : String) :
    (dispatchEvent fetchRefund body db = .ok db2 →
        handleWebhook fetchRefund secret
          (some (hmacSha256Hex secret body.stringify)) body db = (200, db2))
    ∧ (dispatchEvent fetchRefund body db = .error msg →
        handleWebhook fetchRefund secret
          (some (hmacSha256Hex secret body.stringify)) body db = (500, db)) := by
  constructor <;> intro h <;> rw [handleWebhook_valid_sig, h]

/-- Witness for C9 (amended): an unrecognized event name is acknowledged 200
without touching the store, and a throwing `refund.created` for an unknown
payment is answered 500. -/
theorem C9_webhook_ack_after_valid_signature_witness :
    handleWebhook (fun r => ⟨r, 0, "processed"⟩) "whsec"
        (some (hmacSha256Hex "whsec" (WebhookBody.stringify ⟨"order.paid", none, none⟩)))
        ⟨"order.paid", none, none⟩ ⟨[], []⟩ = (200, ⟨[], []⟩)
    ∧ handleWebhook (fun r => ⟨r, 0, "processed"⟩) "whsec"
        (some (hmacSha256Hex "whsec"
          (WebhookBody.stringify ⟨"refund.created", none, some ⟨"rf_9", "pay_9"⟩⟩)))
        ⟨"refund.created", none, some ⟨"rf_9", "pay_9"⟩⟩ ⟨[], []⟩ = (500, ⟨[], []⟩) :=
  ⟨(C9_webhook_ack_after_valid_signature (fun r => ⟨r, 0, "processed"⟩) "whsec"
      ⟨"order.paid", none, none⟩ ⟨[], []⟩ ⟨[], []⟩ "x").1 rfl,
   (C9_webhook_ack_after_valid_signature (fun r => ⟨r, 0, "processed"⟩) "whsec"
      ⟨"refund.created", none, some ⟨"rf_9", "pay_9"⟩⟩ ⟨[], []⟩ ⟨[], []⟩
      "Payment not found").2 rfl⟩

/-- C10: a captured/failed webhook for an unknown payment id upserts a fresh
payment document holding just the payment id and the new status, and the
order update happens only when the event carries an order id. -/
theorem C10_upsert_unknown_payment (pid status : String) (oid : Option String)
    (db : DB) (habs : db.payments.any (fun p => p.paymentId == pid) = false) :
    (updatePaymentStatus pid oid status db).payments
        = db.payments ++ [upsertedPayment pid status]
    ∧ (truthy oid = false →
        (updatePaymentStatus pid oid status db).orders = db.orders) := by
  constructor
  · simp [updatePaymentStatus, habs]
  · intro ht
    cases oid with
    | none => simp [updatePaymentStatus]
    | some o =>
        simp only [truthy, decide_eq_false_iff_not, Decidable.not_not] at ht
        simp [updatePaymentStatus, ht]

/-- Witness for C10: a `failed` event with no order id on a store with an
unrelated payment. -/
theorem C10_upsert_unknown_payment_witness :
    (updatePaymentStatus "pay_9" none "failed"
        ⟨[⟨"pay_1", "order_1", "captured", 5, []⟩], [⟨"order_1", "paid"⟩]⟩).payments
      = [⟨"pay_1", "order_1", "captured", 5, []⟩] ++ [upsertedPayment "pay_9" "failed"]
    ∧ (updatePaymentStatus "pay_9" none "failed"
        ⟨[⟨"pay_1", "order_1", "captured", 5, []⟩], [⟨"order_1", "paid"⟩]⟩).orders
      = [⟨"order_1", "paid"⟩] :=
  ⟨(C10_upsert_unknown_payment "pay_9" "failed" none _ (by decide)).1,
   (C10_upsert_unknown_payment "pay_9" "failed" none _ (by decide)).2 (by decide)⟩

end RzInt
